import Mathlib

set_option maxHeartbeats 1000000
set_option maxRecDepth 10000

/-! Verification of the wetterdienst NOAA GHCN client: station-listing
parsing, per-station value collection, the parameter registry, request
construction, the tidy/wide reshaping, and the chunked file reader. -/

/-! ## ASCII case mapping

Embedding of the Python string methods `str.lower` / `str.upper` as used on
parameter codes (all parameter codes and registry keys are basic-latin, so
the ASCII case map of `Char.toLower` / `Char.toUpper` is exact there). -/

/-- Embeds Python `str.lower` on ASCII text: character-wise lower-casing. -/
def strLower (s : String) : String :=
  ⟨s.data.map Char.toLower⟩

/-- Embeds Python `str.upper` on ASCII text: character-wise upper-casing. -/
def strUpper (s : String) : String :=
  ⟨s.data.map Char.toUpper⟩

theorem char_toNat_ofNat {m : Nat} (h : m < 55296) : (Char.ofNat m).toNat = m := by
  have hv : m.isValidChar := Or.inl h
  rw [Char.ofNat, dif_pos hv]
  rfl

theorem char_toLower_toLower (c : Char) : c.toLower.toLower = c.toLower := by
  simp only [Char.toLower]
  by_cases h : 65 ≤ c.toNat ∧ c.toNat ≤ 90
  · rw [if_pos h]
    have h1 : (Char.ofNat (c.toNat + 32)).toNat = c.toNat + 32 :=
      char_toNat_ofNat (by omega)
    rw [if_neg (by rw [h1]; omega)]
  · rw [if_neg h, if_neg h]

theorem char_toUpper_toUpper (c : Char) : c.toUpper.toUpper = c.toUpper := by
  simp only [Char.toUpper]
  by_cases h : 97 ≤ c.toNat ∧ c.toNat ≤ 122
  · rw [if_pos h]
    have h1 : (Char.ofNat (c.toNat - 32)).toNat = c.toNat - 32 :=
      char_toNat_ofNat (by omega)
    rw [if_neg (by rw [h1]; omega)]
  · rw [if_neg h, if_neg h]

theorem char_toUpper_toLower (c : Char) : c.toLower.toUpper = c.toUpper := by
  simp only [Char.toLower, Char.toUpper]
  by_cases h : 65 ≤ c.toNat ∧ c.toNat ≤ 90
  · rw [if_pos h]
    have h1 : (Char.ofNat (c.toNat + 32)).toNat = c.toNat + 32 :=
      char_toNat_ofNat (by omega)
    rw [if_pos (by rw [h1]; omega), if_neg (by omega), h1]
    have h2 : c.toNat + 32 - 32 = c.toNat := by omega
    rw [h2, Char.ofNat_toNat]
  · rw [if_neg h]

theorem strLower_strLower (s : String) : strLower (strLower s) = strLower s := by
  simp [strLower, List.map_map, Function.comp_def, char_toLower_toLower]

theorem strUpper_strUpper (s : String) : strUpper (strUpper s) = strUpper s := by
  simp [strUpper, List.map_map, Function.comp_def, char_toUpper_toUpper]

theorem strUpper_strLower (s : String) : strUpper (strLower s) = strUpper s := by
  simp [strUpper, strLower, List.map_map, Function.comp_def, char_toUpper_toLower]

/-! ## Station listing parsing (NoaaGhcnRequest._all)

`pandas.read_fwf` with explicit colspecs slices each line at the given
half-open character ranges and strips surrounding whitespace from each
field; `NoaaGhcnRequest._all` then names the five columns. -/

/-- Strip leading and trailing whitespace, as pandas does on each
fixed-width field. -/
def stripField (cs : List Char) : List Char :=
  ((cs.dropWhile Char.isWhitespace).reverse.dropWhile Char.isWhitespace).reverse

/-- One fixed-width field of `line`: characters of the half-open range
`[a, b)`, whitespace-stripped — the semantics of one pandas colspec. -/
def sliceStrip (line : String) (a b : Nat) : String :=
  ⟨stripField ((line.data.drop a).take (b - a))⟩

/-- `NoaaGhcnRequest._listing_colspecs`, verbatim from the source. -/
def listing_colspecs : List (Nat × Nat) :=
  [(0, 11), (12, 20), (21, 30), (31, 37), (41, 71)]

/-- A station-listing record, fields in the column order assigned by
`NoaaGhcnRequest._all`. -/
structure StationRecord where
  station_id : String
  latitude : String
  longitude : String
  height : String
  name : String
deriving DecidableEq, Repr

/-- Parse one line of the GHCN station listing the way
`NoaaGhcnRequest._all` does: slice at `listing_colspecs` and assign the
five column names in order. -/
def parseListingRow (line : String) : StationRecord :=
  { station_id := sliceStrip line 0 11
    latitude := sliceStrip line 12 20
    longitude := sliceStrip line 21 30
    height := sliceStrip line 31 37
    name := sliceStrip line 41 71 }

/-- The literal sample row quoted by the specification. -/
def sampleListingRow : String :=
  "GME00111464  50.7983    6.0244   202.0  AACHEN"

/-! ## Value collection (NoaaGhcnValues._collect_station_parameter)

The per-station CSV is parsed by pandas into a rectangular table of string
fields (header=None). The collector drops the last three columns
(`df.iloc[:, :-3]`), assigns the five canonical raw column names (pandas
raises a length-mismatch error unless exactly five columns remain), and
lower-cases the parameter column. -/

/-- One row of the collected raw observation frame, fields in the column
order assigned by `_collect_station_parameter`. -/
structure ObsRow where
  station_id : String
  date : String
  parameter_code : String
  value : String
  quality_flag : String
deriving DecidableEq, Repr

/-- `NoaaGhcnValues._collect_station_parameter` on an already-downloaded,
already-parsed table: drop the last three columns of every row, assign the
five column names (failing as pandas does when the width is not five), and
lower-case the parameter column. -/
def collect_station_parameter (table : List (List String)) :
    Except String (List ObsRow) :=
  let dropped := table.map fun row => row.take (row.length - 3)
  if dropped.all fun row => row.length == 5 then
    let frame := dropped.map fun row =>
      { station_id := row.getD 0 ""
        date := row.getD 1 ""
        parameter_code := row.getD 2 ""
        value := row.getD 3 ""
        quality_flag := row.getD 4 "" : ObsRow }
    .ok (frame.map fun r => { r with parameter_code := strLower r.parameter_code })
  else
    .error "Length mismatch: expected axis has 5 elements"

/-! ## Parameter registry (NoaaGhcnParameter.DAILY)

The registry table, transcribed entry for entry from
`wetterdienst/provider/noaa/ghcn/parameter.py`. -/

/-- One registry entry: canonical name and agency-native code. -/
structure ParameterEntry where
  canonical_name : String
  agency_code : String
deriving DecidableEq, Repr

/-- Entries 0..39 of the daily GHCN parameter enumeration, in source order. -/
def noaaGhcnDaily0 : List ParameterEntry := [
  ⟨"PRECIPITATION_HEIGHT", "prcp"⟩,
  ⟨"SNOW_DEPTH_NEW", "snow"⟩,
  ⟨"SNOW_DEPTH", "snwd"⟩,
  ⟨"TEMPERATURE_AIR_MAX_200", "tmax"⟩,
  ⟨"TEMPERATURE_AIR_MIN_200", "tmin"⟩,
  ⟨"CLOUD_COVER_TOTAL_MIDNIGHT_TO_MIDNIGHT", "acmc"⟩,
  ⟨"CLOUD_COVER_TOTAL_MIDNIGHT_TO_MIDNIGHT_MANUAL", "acmh"⟩,
  ⟨"CLOUD_COVER_TOTAL_SUNRISE_TO_SUNSET", "acsc"⟩,
  ⟨"CLOUD_COVER_TOTAL_SUNRISE_TO_SUNSET_MANUAL", "acsh"⟩,
  ⟨"WIND_SPEED", "awnd"⟩,
  ⟨"COUNT_DAYS_MULTIDAY_EVAPORATION", "daev"⟩,
  ⟨"COUNT_DAYS_MULTIDAY_PRECIPITATION", "dapr"⟩,
  ⟨"COUNT_DAYS_MULTIDAY_SNOW_DEPTH_NEW", "dasf"⟩,
  ⟨"COUNT_DAYS_MULTIDAY_TEMPERATURE_AIR_MIN_200", "datn"⟩,
  ⟨"COUNT_DAYS_MULTIDAY_TEMPERATURE_AIR_MAX_200", "datx"⟩,
  ⟨"COUNT_DAYS_MULTIDAY_WIND_MOVEMENT", "dawm"⟩,
  ⟨"COUNT_DAYS_MULTIDAY_PRECIPITATION_HEIGHT_GT_0", "dwpr"⟩,
  ⟨"EVAPORATION_HEIGHT", "evap"⟩,
  ⟨"TIME_WIND_GUST_MAX_1MILE_OR_1MIN", "fmtm"⟩,
  ⟨"FROZEN_GROUND_LAYER_BASE", "frgb"⟩,
  ⟨"FROZEN_GROUND_LAYER_TOP", "frgt"⟩,
  ⟨"FROZEN_GROUND_LAYER_THICKNESS", "frth"⟩,
  ⟨"DISTANCE_RIVER_GAUGE_HEIGHT", "gaht"⟩,
  ⟨"EVAPORATION_HEIGHT_MULTIDAY", "mdev"⟩,
  ⟨"PRECIPITATION_HEIGHT_MULTIDAY", "mdpr"⟩,
  ⟨"SNOW_DEPTH_NEW_MULTIDAY", "mdsf"⟩,
  ⟨"TEMPERATURE_AIR_MIN_200_MULTIDAY", "mdtn"⟩,
  ⟨"TEMPERATURE_AIR_MAX_200_MULTIDAY", "mdtx"⟩,
  ⟨"WIND_MOVEMENT_MULTIDAY", "mdwm"⟩,
  ⟨"TEMPERATURE_WATER_EVAPORATION_PAN_MIN", "mnpn"⟩,
  ⟨"TEMPERATURE_WATER_EVAPORATION_PAN_MAX", "mxpn"⟩,
  ⟨"TIME_WIND_GUST_MAX", "pgtm"⟩,
  ⟨"SUNSHINE_DURATION_RELATIVE", "psun"⟩,
  ⟨"TEMPERATURE_SOIL_MIN_UNKNOWN_005", "sn01"⟩,
  ⟨"TEMPERATURE_SOIL_MIN_UNKNOWN_010", "sn02"⟩,
  ⟨"TEMPERATURE_SOIL_MIN_UNKNOWN_020", "sn03"⟩,
  ⟨"TEMPERATURE_SOIL_MIN_UNKNOWN_050", "sn04"⟩,
  ⟨"TEMPERATURE_SOIL_MIN_UNKNOWN_100", "sn05"⟩,
  ⟨"TEMPERATURE_SOIL_MIN_UNKNOWN_150", "sn06"⟩,
  ⟨"TEMPERATURE_SOIL_MIN_UNKNOWN_180", "sn07"⟩]

/-- Entries 40..79 of the daily GHCN parameter enumeration, in source order. -/
def noaaGhcnDaily1 : List ParameterEntry := [
  ⟨"TEMPERATURE_SOIL_MAX_UNKNOWN_005", "sx01"⟩,
  ⟨"TEMPERATURE_SOIL_MAX_UNKNOWN_010", "sx02"⟩,
  ⟨"TEMPERATURE_SOIL_MAX_UNKNOWN_020", "sx03"⟩,
  ⟨"TEMPERATURE_SOIL_MAX_UNKNOWN_050", "sx04"⟩,
  ⟨"TEMPERATURE_SOIL_MAX_UNKNOWN_100", "sx05"⟩,
  ⟨"TEMPERATURE_SOIL_MAX_UNKNOWN_150", "sx06"⟩,
  ⟨"TEMPERATURE_SOIL_MAX_UNKNOWN_180", "sx07"⟩,
  ⟨"TEMPERATURE_SOIL_MIN_GRASS_005", "sn11"⟩,
  ⟨"TEMPERATURE_SOIL_MIN_GRASS_010", "sn12"⟩,
  ⟨"TEMPERATURE_SOIL_MIN_GRASS_020", "sn13"⟩,
  ⟨"TEMPERATURE_SOIL_MIN_GRASS_050", "sn14"⟩,
  ⟨"TEMPERATURE_SOIL_MIN_GRASS_100", "sn15"⟩,
  ⟨"TEMPERATURE_SOIL_MIN_GRASS_150", "sn16"⟩,
  ⟨"TEMPERATURE_SOIL_MIN_GRASS_180", "sn17"⟩,
  ⟨"TEMPERATURE_SOIL_MAX_GRASS_005", "sx11"⟩,
  ⟨"TEMPERATURE_SOIL_MAX_GRASS_010", "sx12"⟩,
  ⟨"TEMPERATURE_SOIL_MAX_GRASS_020", "sx13"⟩,
  ⟨"TEMPERATURE_SOIL_MAX_GRASS_050", "sx14"⟩,
  ⟨"TEMPERATURE_SOIL_MAX_GRASS_100", "sx15"⟩,
  ⟨"TEMPERATURE_SOIL_MAX_GRASS_150", "sx16"⟩,
  ⟨"TEMPERATURE_SOIL_MAX_GRASS_180", "sx17"⟩,
  ⟨"TEMPERATURE_SOIL_MIN_FALLOW_005", "sn21"⟩,
  ⟨"TEMPERATURE_SOIL_MIN_FALLOW_010", "sn22"⟩,
  ⟨"TEMPERATURE_SOIL_MIN_FALLOW_020", "sn23"⟩,
  ⟨"TEMPERATURE_SOIL_MIN_FALLOW_050", "sn24"⟩,
  ⟨"TEMPERATURE_SOIL_MIN_FALLOW_100", "sn25"⟩,
  ⟨"TEMPERATURE_SOIL_MIN_FALLOW_150", "sn26"⟩,
  ⟨"TEMPERATURE_SOIL_MIN_FALLOW_180", "sn27"⟩,
  ⟨"TEMPERATURE_SOIL_MAX_FALLOW_005", "sx21"⟩,
  ⟨"TEMPERATURE_SOIL_MAX_FALLOW_010", "sx22"⟩,
  ⟨"TEMPERATURE_SOIL_MAX_FALLOW_020", "sx23"⟩,
  ⟨"TEMPERATURE_SOIL_MAX_FALLOW_050", "sx24"⟩,
  ⟨"TEMPERATURE_SOIL_MAX_FALLOW_100", "sx25"⟩,
  ⟨"TEMPERATURE_SOIL_MAX_FALLOW_150", "sx26"⟩,
  ⟨"TEMPERATURE_SOIL_MAX_FALLOW_180", "sx27"⟩,
  ⟨"TEMPERATURE_SOIL_MIN_BARE_GROUND_005", "sn31"⟩,
  ⟨"TEMPERATURE_SOIL_MIN_BARE_GROUND_010", "sn32"⟩,
  ⟨"TEMPERATURE_SOIL_MIN_BARE_GROUND_020", "sn33"⟩,
  ⟨"TEMPERATURE_SOIL_MIN_BARE_GROUND_050", "sn34"⟩,
  ⟨"TEMPERATURE_SOIL_MIN_BARE_GROUND_100", "sn35"⟩]

/-- Entries 80..119 of the daily GHCN parameter enumeration, in source order. -/
def noaaGhcnDaily2 : List ParameterEntry := [
  ⟨"TEMPERATURE_SOIL_MIN_BARE_GROUND_150", "sn36"⟩,
  ⟨"TEMPERATURE_SOIL_MIN_BARE_GROUND_180", "sn37"⟩,
  ⟨"TEMPERATURE_SOIL_MAX_BARE_GROUND_005", "sx31"⟩,
  ⟨"TEMPERATURE_SOIL_MAX_BARE_GROUND_010", "sx32"⟩,
  ⟨"TEMPERATURE_SOIL_MAX_BARE_GROUND_020", "sx33"⟩,
  ⟨"TEMPERATURE_SOIL_MAX_BARE_GROUND_050", "sx34"⟩,
  ⟨"TEMPERATURE_SOIL_MAX_BARE_GROUND_100", "sx35"⟩,
  ⟨"TEMPERATURE_SOIL_MAX_BARE_GROUND_150", "sx36"⟩,
  ⟨"TEMPERATURE_SOIL_MAX_BARE_GROUND_180", "sx37"⟩,
  ⟨"TEMPERATURE_SOIL_MIN_BROME_GRASS_005", "sn41"⟩,
  ⟨"TEMPERATURE_SOIL_MIN_BROME_GRASS_010", "sn42"⟩,
  ⟨"TEMPERATURE_SOIL_MIN_BROME_GRASS_020", "sn43"⟩,
  ⟨"TEMPERATURE_SOIL_MIN_BROME_GRASS_050", "sn44"⟩,
  ⟨"TEMPERATURE_SOIL_MIN_BROME_GRASS_100", "sn45"⟩,
  ⟨"TEMPERATURE_SOIL_MIN_BROME_GRASS_150", "sn46"⟩,
  ⟨"TEMPERATURE_SOIL_MIN_BROME_GRASS_180", "sn47"⟩,
  ⟨"TEMPERATURE_SOIL_MAX_BROME_GRASS_005", "sx41"⟩,
  ⟨"TEMPERATURE_SOIL_MAX_BROME_GRASS_010", "sx42"⟩,
  ⟨"TEMPERATURE_SOIL_MAX_BROME_GRASS_020", "sx43"⟩,
  ⟨"TEMPERATURE_SOIL_MAX_BROME_GRASS_050", "sx44"⟩,
  ⟨"TEMPERATURE_SOIL_MAX_BROME_GRASS_100", "sx45"⟩,
  ⟨"TEMPERATURE_SOIL_MAX_BROME_GRASS_150", "sx46"⟩,
  ⟨"TEMPERATURE_SOIL_MAX_BROME_GRASS_180", "sx47"⟩,
  ⟨"TEMPERATURE_SOIL_MIN_SOD_005", "sn51"⟩,
  ⟨"TEMPERATURE_SOIL_MIN_SOD_010", "sn52"⟩,
  ⟨"TEMPERATURE_SOIL_MIN_SOD_020", "sn53"⟩,
  ⟨"TEMPERATURE_SOIL_MIN_SOD_050", "sn54"⟩,
  ⟨"TEMPERATURE_SOIL_MIN_SOD_100", "sn55"⟩,
  ⟨"TEMPERATURE_SOIL_MIN_SOD_150", "sn56"⟩,
  ⟨"TEMPERATURE_SOIL_MIN_SOD_180", "sn57"⟩,
  ⟨"TEMPERATURE_SOIL_MAX_SOD_005", "sx51"⟩,
  ⟨"TEMPERATURE_SOIL_MAX_SOD_010", "sx52"⟩,
  ⟨"TEMPERATURE_SOIL_MAX_SOD_020", "sx53"⟩,
  ⟨"TEMPERATURE_SOIL_MAX_SOD_050", "sx54"⟩,
  ⟨"TEMPERATURE_SOIL_MAX_SOD_100", "sx55"⟩,
  ⟨"TEMPERATURE_SOIL_MAX_SOD_150", "sx56"⟩,
  ⟨"TEMPERATURE_SOIL_MAX_SOD_180", "sx57"⟩,
  ⟨"TEMPERATURE_SOIL_MIN_STRAW_MULCH_005", "sn61"⟩,
  ⟨"TEMPERATURE_SOIL_MIN_STRAW_MULCH_010", "sn62"⟩,
  ⟨"TEMPERATURE_SOIL_MIN_STRAW_MULCH_020", "sn63"⟩]

/-- Entries 120..159 of the daily GHCN parameter enumeration, in source order. -/
def noaaGhcnDaily3 : List ParameterEntry := [
  ⟨"TEMPERATURE_SOIL_MIN_STRAW_MULCH_050", "sn64"⟩,
  ⟨"TEMPERATURE_SOIL_MIN_STRAW_MULCH_100", "sn65"⟩,
  ⟨"TEMPERATURE_SOIL_MIN_STRAW_MULCH_150", "sn66"⟩,
  ⟨"TEMPERATURE_SOIL_MIN_STRAW_MULCH_180", "sn67"⟩,
  ⟨"TEMPERATURE_SOIL_MAX_STRAW_MULCH_005", "sx61"⟩,
  ⟨"TEMPERATURE_SOIL_MAX_STRAW_MULCH_010", "sx62"⟩,
  ⟨"TEMPERATURE_SOIL_MAX_STRAW_MULCH_020", "sx63"⟩,
  ⟨"TEMPERATURE_SOIL_MAX_STRAW_MULCH_050", "sx64"⟩,
  ⟨"TEMPERATURE_SOIL_MAX_STRAW_MULCH_100", "sx65"⟩,
  ⟨"TEMPERATURE_SOIL_MAX_STRAW_MULCH_150", "sx66"⟩,
  ⟨"TEMPERATURE_SOIL_MAX_STRAW_MULCH_180", "sx67"⟩,
  ⟨"TEMPERATURE_SOIL_MIN_GRASS_MUCK_005", "sn71"⟩,
  ⟨"TEMPERATURE_SOIL_MIN_GRASS_MUCK_010", "sn72"⟩,
  ⟨"TEMPERATURE_SOIL_MIN_GRASS_MUCK_020", "sn73"⟩,
  ⟨"TEMPERATURE_SOIL_MIN_GRASS_MUCK_050", "sn74"⟩,
  ⟨"TEMPERATURE_SOIL_MIN_GRASS_MUCK_100", "sn75"⟩,
  ⟨"TEMPERATURE_SOIL_MIN_GRASS_MUCK_150", "sn76"⟩,
  ⟨"TEMPERATURE_SOIL_MIN_GRASS_MUCK_180", "sn77"⟩,
  ⟨"TEMPERATURE_SOIL_MAX_GRASS_MUCK_005", "sx71"⟩,
  ⟨"TEMPERATURE_SOIL_MAX_GRASS_MUCK_010", "sx72"⟩,
  ⟨"TEMPERATURE_SOIL_MAX_GRASS_MUCK_020", "sx73"⟩,
  ⟨"TEMPERATURE_SOIL_MAX_GRASS_MUCK_050", "sx74"⟩,
  ⟨"TEMPERATURE_SOIL_MAX_GRASS_MUCK_100", "sx75"⟩,
  ⟨"TEMPERATURE_SOIL_MAX_GRASS_MUCK_150", "sx76"⟩,
  ⟨"TEMPERATURE_SOIL_MAX_GRASS_MUCK_180", "sx77"⟩,
  ⟨"TEMPERATURE_SOIL_MIN_BARE_MUCK_005", "sn81"⟩,
  ⟨"TEMPERATURE_SOIL_MIN_BARE_MUCK_010", "sn82"⟩,
  ⟨"TEMPERATURE_SOIL_MIN_BARE_MUCK_020", "sn83"⟩,
  ⟨"TEMPERATURE_SOIL_MIN_BARE_MUCK_050", "sn84"⟩,
  ⟨"TEMPERATURE_SOIL_MIN_BARE_MUCK_100", "sn85"⟩,
  ⟨"TEMPERATURE_SOIL_MIN_BARE_MUCK_150", "sn86"⟩,
  ⟨"TEMPERATURE_SOIL_MIN_BARE_MUCK_180", "sn87"⟩,
  ⟨"TEMPERATURE_SOIL_MAX_BARE_MUCK_005", "sx81"⟩,
  ⟨"TEMPERATURE_SOIL_MAX_BARE_MUCK_010", "sx82"⟩,
  ⟨"TEMPERATURE_SOIL_MAX_BARE_MUCK_020", "sx83"⟩,
  ⟨"TEMPERATURE_SOIL_MAX_BARE_MUCK_050", "sx84"⟩,
  ⟨"TEMPERATURE_SOIL_MAX_BARE_MUCK_100", "sx85"⟩,
  ⟨"TEMPERATURE_SOIL_MAX_BARE_MUCK_150", "sx86"⟩,
  ⟨"TEMPERATURE_SOIL_MAX_BARE_MUCK_180", "sx87"⟩,
  ⟨"ICE_ON_WATER_THICKNESS", "thic"⟩]

/-- Entries 160..199 of the daily GHCN parameter enumeration, in source order. -/
def noaaGhcnDaily4 : List ParameterEntry := [
  ⟨"TEMPERATURE_AIR_200", "tobs"⟩,
  ⟨"SUNSHINE_DURATION", "tsun"⟩,
  ⟨"WIND_DIRECTION_GUST_MAX_5SEC", "wdf5"⟩,
  ⟨"WIND_DIRECTION_GUST_MAX_1MIN", "wdf1"⟩,
  ⟨"WIND_DIRECTION_GUST_MAX_2MIN", "wdf2"⟩,
  ⟨"WIND_DIRECTION_GUST_MAX", "wdfg"⟩,
  ⟨"WIND_DIRECTION_GUST_MAX_INSTANT", "wdfi"⟩,
  ⟨"WIND_DIRECTION_GUST_MAX_1MILE", "wdfm"⟩,
  ⟨"WIND_MOVEMENT_24HOUR", "wdmv"⟩,
  ⟨"WATER_EQUIVALENT_SNOW_DEPTH", "wesd"⟩,
  ⟨"WATER_EQUIVALENT_SNOW_DEPTH_NEW", "wesf"⟩,
  ⟨"WIND_GUST_MAX_5SEC", "wsf5"⟩,
  ⟨"WIND_GUST_MAX_1MIN", "wsf1"⟩,
  ⟨"WIND_GUST_MAX_2MIN", "wsf2"⟩,
  ⟨"WIND_GUST_MAX", "wsfg"⟩,
  ⟨"WIND_GUST_MAX_INSTANT", "wsfi"⟩,
  ⟨"WIND_GUST_MAX_1MILE", "wsfm"⟩,
  ⟨"WEATHER_TYPE_FOG", "wt01"⟩,
  ⟨"WEATHER_TYPE_HEAVY_FOG", "wt02"⟩,
  ⟨"WEATHER_TYPE_THUNDER", "wt03"⟩,
  ⟨"WEATHER_TYPE_ICE_SLEET_SNOW_HAIL", "wt04"⟩,
  ⟨"WEATHER_TYPE_HAIL", "wt05"⟩,
  ⟨"WEATHER_TYPE_GLAZE_RIME", "wt06"⟩,
  ⟨"WEATHER_TYPE_DUST_ASH_SAND", "wt07"⟩,
  ⟨"WEATHER_TYPE_SMOKE_HAZE", "wt08"⟩,
  ⟨"WEATHER_TYPE_BLOWING_DRIFTING_SNOW", "wt09"⟩,
  ⟨"WEATHER_TYPE_TORNADO_WATERSPOUT", "wt10"⟩,
  ⟨"WEATHER_TYPE_HIGH_DAMAGING_WINDS", "wt11"⟩,
  ⟨"WEATHER_TYPE_BLOWING_SPRAY", "wt12"⟩,
  ⟨"WEATHER_TYPE_MIST", "wt13"⟩,
  ⟨"WEATHER_TYPE_DRIZZLE", "wt14"⟩,
  ⟨"WEATHER_TYPE_FREEZING_DRIZZLE", "wt15"⟩,
  ⟨"WEATHER_TYPE_RAIN", "wt16"⟩,
  ⟨"WEATHER_TYPE_FREEZING_RAIN", "wt17"⟩,
  ⟨"WEATHER_TYPE_SNOW_PELLETS_SNOW_GRAINS_ICE_CRYSTALS", "wt18"⟩,
  ⟨"WEATHER_TYPE_PRECIPITATION_UNKNOWN_SOURCE", "wt19"⟩,
  ⟨"WEATHER_TYPE_GROUND_FOG", "wt21"⟩,
  ⟨"WEATHER_TYPE_ICE_FOG_FREEZING_FOG", "wt22"⟩,
  ⟨"WEATHER_TYPE_VICINITY_FOG_ANY", "wv01"⟩,
  ⟨"WEATHER_TYPE_VICINITY_THUNDER", "wv03"⟩]

/-- Entries 200..202 of the daily GHCN parameter enumeration, in source order. -/
def noaaGhcnDaily5 : List ParameterEntry := [
  ⟨"WEATHER_TYPE_VICINITY_DUST_ASH_SAND", "wv07"⟩,
  ⟨"WEATHER_TYPE_VICINITY_SNOW_ICE_CRYSTALS", "wv18"⟩,
  ⟨"WEATHER_TYPE_VICINITY_RAIN_SNOW_SHOWER", "wv20"⟩]

/-- `NoaaGhcnParameter.DAILY`: every (canonical name, agency code) pair of
the daily GHCN parameter enumeration, in source order. -/
def noaaGhcnDaily : List ParameterEntry :=
  noaaGhcnDaily0 ++ noaaGhcnDaily1 ++ noaaGhcnDaily2 ++ noaaGhcnDaily3 ++ noaaGhcnDaily4 ++ noaaGhcnDaily5

/-- Modelled from the spec: the parameter-registry lookup (the resolver in
`core/scalar/request.py` is not part of the sources). Given a
case-insensitive string, return the first entry whose canonical name or
agency code matches exactly after upper-case normalization, or fail with a
parameter-not-found error. -/
def resolveParameter (table : List ParameterEntry) (s : String) :
    Except String (String × String) :=
  match table.find? (fun e =>
      strUpper e.canonical_name == strUpper s || strUpper e.agency_code == strUpper s) with
  | some e => .ok (e.canonical_name, e.agency_code)
  | none => .error "parameter not found"


/-! ## Request construction (NoaaGhcnRequest.__init__)

`NoaaGhcnRequest.__init__` accepts no resolution or period argument and
forwards fixed values to the core constructor. The core constructor
(`ScalarRequestCore.__init__`) is outside the sources and is modelled from
the spec. -/

/-- Temporal resolutions (a subset suffices for this provider). -/
inductive WdResolution
  | DAILY
  | HOURLY
deriving DecidableEq, Repr

/-- Data completeness/recency classes (a subset suffices). -/
inductive WdPeriod
  | HISTORICAL
  | RECENT
deriving DecidableEq, Repr

/-- Error kinds surfaced to the caller. -/
inductive WdError
  | validation (msg : String)
  | network (msg : String)
deriving DecidableEq, Repr

/-- A constructed request descriptor. -/
structure ScalarRequest where
  parameter : List String
  resolution : WdResolution
  period : WdPeriod
  start_date : Option Int
  end_date : Option Int
  humanize : Bool
  tidy : Bool
  si_units : Bool
deriving DecidableEq, Repr

/-- Modelled from the spec: the core request constructor
(`ScalarRequestCore.__init__` is not part of the sources). It records the
arguments and fails with a validation error when both dates are given and
the range is inverted. Dates are modelled as integer timestamps. -/
def scalarRequestInit (parameter : List String) (resolution : WdResolution)
    (period : WdPeriod) (start_date end_date : Option Int)
    (humanize tidy si_units : Bool) : Except WdError ScalarRequest :=
  match start_date, end_date with
  | some s, some e =>
    if e < s then
      .error (.validation "start_date must be smaller or equal to end_date")
    else
      .ok ⟨parameter, resolution, period, some s, some e, humanize, tidy, si_units⟩
  | some s, none =>
    .ok ⟨parameter, resolution, period, some s, none, humanize, tidy, si_units⟩
  | none, some e =>
    .ok ⟨parameter, resolution, period, none, some e, humanize, tidy, si_units⟩
  | none, none =>
    .ok ⟨parameter, resolution, period, none, none, humanize, tidy, si_units⟩

/-- `NoaaGhcnRequest.__init__`: forwards its arguments to the core
constructor together with the fixed resolution `DAILY` and the fixed
period `HISTORICAL`. -/
def noaaGhcnRequestInit (parameter : List String) (start_date end_date : Option Int)
    (humanize tidy si_units : Bool) : Except WdError ScalarRequest :=
  scalarRequestInit parameter .DAILY .HISTORICAL start_date end_date
    humanize tidy si_units

/-- Construct a request, then fetch the station listing with the supplied
network action and parse it (`NoaaGhcnRequest._all`). A construction error
propagates without the fetch result ever being consulted. -/
def noaaGhcnQueryStations (fetchListing : Unit → Except WdError (List String))
    (parameter : List String) (start_date end_date : Option Int)
    (humanize tidy si_units : Bool) : Except WdError (List StationRecord) :=
  match noaaGhcnRequestInit parameter start_date end_date humanize tidy si_units with
  | .error e => .error e
  | .ok _ => (fetchListing ()).map (List.map parseListingRow)

/-! ## Tidy/wide reshaping

The wide pivot and its inverse are modelled from the spec (the reshaping
code is not part of the sources): wide form has one value column per
requested parameter, deterministically ordered by canonical name, keyed by
(station_id, date); empty cells are dropped when melting back to tidy
form. The quality flag does not survive the wide form, so tidy rows carry
the value column only. -/

/-- One row of a tidy frame: one reading of one parameter. -/
structure TidyRow where
  station_id : String
  date : String
  parameter : String
  value : Int
deriving DecidableEq, Repr

/-- A wide frame: the ordered parameter columns and, per (station_id,
date) key, one optional cell per parameter column. -/
structure WideFrame where
  params : List String
  rows : List ((String × String) × List (Option Int))
deriving DecidableEq, Repr

/-- The (station_id, date) keys of a tidy frame, deduplicated. -/
def tidyKeys (rows : List TidyRow) : List (String × String) :=
  (rows.map fun r => (r.station_id, r.date)).dedup

/-- The value of parameter `p` at key `(sid, d)`: the value of the first
matching tidy row, if any. -/
def lookupValue (rows : List TidyRow) (sid d p : String) : Option Int :=
  (rows.find? fun r =>
    r.station_id == sid && r.date == d && r.parameter == p).map TidyRow.value

/-- Modelled from the spec: pivot a tidy frame over the requested
parameter set `ps` to wide form, parameter columns sorted by canonical
name. -/
def pivotWide (ps : List String) (rows : List TidyRow) : WideFrame :=
  let cols := ps.dedup.mergeSort fun a b => decide (a ≤ b)
  { params := cols
    rows := (tidyKeys rows).map fun k =>
      (k, cols.map fun p => lookupValue rows k.1 k.2 p) }

/-- Modelled from the spec: reshape a wide frame back to tidy form, one
row per non-empty cell. -/
def unpivotTidy (w : WideFrame) : List TidyRow :=
  w.rows.flatMap fun kr =>
    (w.params.zip kr.2).filterMap fun pc =>
      pc.2.map fun v => ⟨kr.1.1, kr.1.2, pc.1, v⟩

/-! ## Chunked file reading (wetterdienst/util/io.py) -/

/-- `read_in_chunks` over a pure model of a file object: a read returns
the next `chunk_size` elements of the remaining content and advances, and
the loop stops at the first empty read. -/
def read_in_chunks {α : Type} (file_object : List α) (chunk_size : Nat) :
    List (List α) :=
  if _h : (file_object.take chunk_size).isEmpty then []
  else
    file_object.take chunk_size ::
      read_in_chunks (file_object.drop chunk_size) chunk_size
termination_by file_object.length
decreasing_by
  simp only [List.isEmpty_eq_true, List.take_eq_nil_iff, not_or] at _h
  simp only [List.length_drop]
  have h1 : file_object.length ≠ 0 := by
    simpa [List.length_eq_zero] using _h.2
  omega

/-! ## Claims -/

/-- C1 (counterexample): on the literally quoted sample row the parse does
not yield height "202.0" and name "AACHEN": the spacing of the quoted row
puts the final digit of the height at offset 37 (outside the (31,37)
slice) and the first letter of the name at offset 40 (before the (41,71)
slice). -/
theorem c1_counterexample :
    parseListingRow sampleListingRow ≠
      { station_id := "GME00111464", latitude := "50.7983",
        longitude := "6.0244", height := "202.0", name := "AACHEN" } := by
  decide

/-- C1 (amended): parsing a station-listing row slices at the documented
column offsets (0,11),(12,20),(21,30),(31,37),(41,71) and maps the fields,
in order, to station_id, latitude, longitude, height, name; on the literal
sample row this yields station_id "GME00111464", latitude "50.7983",
longitude "6.0244", height "202." and name "ACHEN". -/
theorem c1_theorem :
    (∀ line : String,
      [(parseListingRow line).station_id, (parseListingRow line).latitude,
       (parseListingRow line).longitude, (parseListingRow line).height,
       (parseListingRow line).name] =
        listing_colspecs.map fun ab => sliceStrip line ab.1 ab.2) ∧
    parseListingRow sampleListingRow =
      { station_id := "GME00111464", latitude := "50.7983",
        longitude := "6.0244", height := "202.", name := "ACHEN" } :=
  ⟨fun _ => rfl, by decide⟩

/-- C2: whenever the value collector parses a raw per-station file (pandas
delivers these files as rectangular eight-column tables), the resulting
frame consists of exactly the first five columns of every row, interpreted
in order as station_id, date, parameter_code (lower-cased on read), value
and quality_flag, and the trailing three columns are discarded. -/
theorem c2_theorem (table : List (List String))
    (h8 : ∀ row ∈ table, row.length = 8) :
    collect_station_parameter table = .ok (table.map fun row =>
      { station_id := row.getD 0 "", date := row.getD 1 "",
        parameter_code := strLower (row.getD 2 ""), value := row.getD 3 "",
        quality_flag := row.getD 4 "" }) := by
  have hall : (table.map fun row => row.take (row.length - 3)).all
      (fun row => row.length == 5) = true := by
    rw [List.all_eq_true]
    intro row hrow
    rw [List.mem_map] at hrow
    obtain ⟨orig, ho, rfl⟩ := hrow
    simp [h8 orig ho]
  simp only [collect_station_parameter, hall, if_true, List.map_map]
  congr 1
  apply List.map_congr_left
  intro row hrow
  have h1 : row.length - 3 = 5 := by rw [h8 row hrow]
  have hg : ∀ i : Nat, i < 5 → (row.take 5).getD i "" = row.getD i "" := by
    intro i hi
    simp [List.getD_eq_getElem?_getD, List.getElem?_take_of_lt hi]
  simp only [Function.comp_def, h1, hg 0 (by omega), hg 1 (by omega),
    hg 2 (by omega), hg 3 (by omega), hg 4 (by omega)]

/-- C2 (witness): the collector on a concrete eight-column file. -/
theorem c2_witness :
    collect_station_parameter
      [["ASN00008255", "19500101", "PRCP", "0", "a", "b", "c", "d"]] =
      .ok [{ station_id := "ASN00008255", date := "19500101",
             parameter_code := "prcp", value := "0", quality_flag := "a" }] := by
  rw [c2_theorem _ (by decide)]
  rfl

/-- C3: every frame the value collector returns has an all-lower-case
parameter_code column: each entry equals its own lower-casing, whatever
the case of the parameter codes in the raw file. -/
theorem c3_theorem (table : List (List String)) (frame : List ObsRow)
    (h : collect_station_parameter table = .ok frame) :
    ∀ r ∈ frame, strLower r.parameter_code = r.parameter_code := by
  simp only [collect_station_parameter] at h
  split at h
  · injection h with h'
    subst h'
    intro r hr
    rw [List.mem_map] at hr
    obtain ⟨r0, _, rfl⟩ := hr
    exact strLower_strLower r0.parameter_code
  · exact absurd h (by simp)

/-- C3 (witness): a mixed-case raw file, checked on the row the collector
produces from it. -/
theorem c3_witness :
    strLower ({ station_id := "ASN00008255", date := "19500101",
                parameter_code := "prcp", value := "0",
                quality_flag := "a" : ObsRow }).parameter_code =
      ({ station_id := "ASN00008255", date := "19500101",
         parameter_code := "prcp", value := "0",
         quality_flag := "a" : ObsRow }).parameter_code :=
  c3_theorem [["ASN00008255", "19500101", "PrCp", "0", "a", "b", "c", "d"]]
    [{ station_id := "ASN00008255", date := "19500101", parameter_code := "prcp",
       value := "0", quality_flag := "a" }]
    (by rfl) _ (by decide)

/-- Resolution only sees the upper-cased form of its input: inputs with
the same upper-casing resolve identically. -/
theorem resolveParameter_congr (table : List ParameterEntry) {s t : String}
    (hst : strUpper s = strUpper t) :
    resolveParameter table s = resolveParameter table t := by
  simp only [resolveParameter, hst]

/-- C4: a parameter string that resolves against the daily GHCN registry
resolves to the same canonical (name, code) pair when given fully
upper-cased and when given fully lower-cased, and the match is exact after
case normalization: the resolved pair comes from a registry entry whose
upper-cased canonical name or upper-cased agency code literally equals the
upper-cased input. -/
theorem c4_theorem (s n c : String)
    (h : resolveParameter noaaGhcnDaily s = .ok (n, c)) :
    resolveParameter noaaGhcnDaily (strUpper s) = .ok (n, c) ∧
    resolveParameter noaaGhcnDaily (strLower s) = .ok (n, c) ∧
    ∃ e ∈ noaaGhcnDaily, e.canonical_name = n ∧ e.agency_code = c ∧
      (strUpper s = strUpper e.canonical_name ∨
       strUpper s = strUpper e.agency_code) := by
  refine ⟨?_, ?_, ?_⟩
  · rw [resolveParameter_congr noaaGhcnDaily (strUpper_strUpper s)]
    exact h
  · rw [resolveParameter_congr noaaGhcnDaily (strUpper_strLower s)]
    exact h
  · unfold resolveParameter at h
    rcases hfind : noaaGhcnDaily.find? fun e =>
        strUpper e.canonical_name == strUpper s ||
          strUpper e.agency_code == strUpper s with _ | e
    · rw [hfind] at h
      exact absurd h (by simp)
    · rw [hfind] at h
      injection h with h'
      have hmem := List.mem_of_find?_eq_some hfind
      have hpred := List.find?_some hfind
      rw [Bool.or_eq_true, beq_iff_eq, beq_iff_eq] at hpred
      refine ⟨e, hmem, ?_, ?_, ?_⟩
      · exact congrArg Prod.fst h'
      · exact congrArg Prod.snd h'
      · rcases hpred with h1 | h1
        · exact Or.inl h1.symm
        · exact Or.inr h1.symm

/-- C4 (witness): the code string "prcp" in upper and lower case. -/
theorem c4_witness :
    resolveParameter noaaGhcnDaily (strUpper "prcp") =
      .ok ("PRECIPITATION_HEIGHT", "prcp") ∧
    resolveParameter noaaGhcnDaily (strLower "prcp") =
      .ok ("PRECIPITATION_HEIGHT", "prcp") ∧
    ∃ e ∈ noaaGhcnDaily, e.canonical_name = "PRECIPITATION_HEIGHT" ∧
      e.agency_code = "prcp" ∧
      (strUpper "prcp" = strUpper e.canonical_name ∨
       strUpper "prcp" = strUpper e.agency_code) :=
  c4_theorem "prcp" "PRECIPITATION_HEIGHT" "prcp" (by rfl)

/-- C7: a string that matches no registry entry under the daily GHCN
resolution — neither as canonical name nor as agency code, after case
normalization — fails to resolve with the parameter-not-found error; no
default pair is returned. -/
theorem c7_theorem (s : String)
    (h : ∀ e ∈ noaaGhcnDaily, strUpper e.canonical_name ≠ strUpper s ∧
      strUpper e.agency_code ≠ strUpper s) :
    resolveParameter noaaGhcnDaily s = .error "parameter not found" := by
  unfold resolveParameter
  have hnone : (noaaGhcnDaily.find? fun e =>
      strUpper e.canonical_name == strUpper s ||
        strUpper e.agency_code == strUpper s) = none := by
    rw [List.find?_eq_none]
    intro e he
    have := h e he
    simp only [Bool.or_eq_true, beq_iff_eq, not_or]
    exact this
  rw [hnone]

/-- C7 (witness): an unknown parameter string. -/
theorem c7_witness :
    resolveParameter noaaGhcnDaily "no_such_parameter" =
      .error "parameter not found" :=
  c7_theorem "no_such_parameter" (by decide)

/-- C8: within the daily GHCN scope of the registry the agency code is
unique: two entries with distinct canonical names always carry distinct
agency codes. -/
theorem c8_theorem : ∀ e1 ∈ noaaGhcnDaily, ∀ e2 ∈ noaaGhcnDaily,
    e1.canonical_name ≠ e2.canonical_name → e1.agency_code ≠ e2.agency_code := by
  have hnodup : (noaaGhcnDaily.map ParameterEntry.agency_code).Nodup := by decide
  intro e1 h1 e2 h2 hne hcode
  exact hne (congrArg ParameterEntry.canonical_name
    (List.inj_on_of_nodup_map hnodup h1 h2 hcode))

/-- C8 (witness): two concrete distinct entries. -/
theorem c8_witness :
    (⟨"PRECIPITATION_HEIGHT", "prcp"⟩ : ParameterEntry).agency_code ≠
      (⟨"SNOW_DEPTH_NEW", "snow"⟩ : ParameterEntry).agency_code :=
  c8_theorem _ (by decide) _ (by decide) (by decide)

/-- C6: a request whose start date lies strictly after its end date fails
at construction with the validation error, whatever the other arguments
are, and the failure is independent of the network: the station query
returns the same validation error for every possible fetch action, so no
fetch result is ever consulted. -/
theorem c6_theorem (fetchListing : Unit → Except WdError (List String))
    (parameter : List String) (s e : Int) (humanize tidy si_units : Bool)
    (hinv : e < s) :
    noaaGhcnQueryStations fetchListing parameter (some s) (some e)
        humanize tidy si_units =
      .error (.validation "start_date must be smaller or equal to end_date") := by
  have hreq : noaaGhcnRequestInit parameter (some s) (some e)
      humanize tidy si_units =
      .error (.validation "start_date must be smaller or equal to end_date") := by
    simp only [noaaGhcnRequestInit, scalarRequestInit]
    rw [if_pos hinv]
  unfold noaaGhcnQueryStations
  rw [hreq]

/-- C6 (witness): an inverted range at a fetch action that would succeed. -/
theorem c6_witness :
    noaaGhcnQueryStations (fun _ => .ok [sampleListingRow]) ["prcp"]
        (some 5) (some 3) true true true =
      .error (.validation "start_date must be smaller or equal to end_date") :=
  c6_theorem (fun _ => .ok [sampleListingRow]) ["prcp"] 5 3 true true true
    (by decide)

/-- C10: every successfully constructed NoaaGhcnRequest carries resolution
DAILY and period HISTORICAL, whatever arguments were supplied: the public
constructor accepts no resolution or period argument and always forwards
these two fixed values. -/
theorem c10_theorem (parameter : List String) (sd ed : Option Int)
    (humanize tidy si_units : Bool) (r : ScalarRequest)
    (h : noaaGhcnRequestInit parameter sd ed humanize tidy si_units = .ok r) :
    r.resolution = .DAILY ∧ r.period = .HISTORICAL := by
  rcases sd with _ | s <;> rcases ed with _ | e <;>
    simp only [noaaGhcnRequestInit, scalarRequestInit] at h
  · injection h with h'
    subst h'
    exact ⟨rfl, rfl⟩
  · injection h with h'
    subst h'
    exact ⟨rfl, rfl⟩
  · injection h with h'
    subst h'
    exact ⟨rfl, rfl⟩
  · split at h
    · exact absurd h (by simp)
    · injection h with h'
      subst h'
      exact ⟨rfl, rfl⟩

/-- C10 (witness): a concrete constructed request. -/
theorem c10_witness :
    (⟨["prcp"], .DAILY, .HISTORICAL, none, none, true, true, true⟩ :
        ScalarRequest).resolution = .DAILY ∧
    (⟨["prcp"], .DAILY, .HISTORICAL, none, none, true, true, true⟩ :
        ScalarRequest).period = .HISTORICAL :=
  c10_theorem ["prcp"] none none true true true _ (by rfl)

/-- C9: for a finite source and a positive chunk size, the chunked reader
yields a finite sequence of chunks (at most one per element of the
content), each non-empty and of length at most the chunk size, whose
concatenation is exactly the full content; the recursion stops exactly at
the first empty read. -/
theorem c9_theorem {α : Type} (content : List α) (chunk_size : Nat)
    (hpos : 0 < chunk_size) :
    (∀ chunk ∈ read_in_chunks content chunk_size,
      chunk ≠ [] ∧ chunk.length ≤ chunk_size) ∧
    (read_in_chunks content chunk_size).flatten = content ∧
    (read_in_chunks content chunk_size).length ≤ content.length := by
  revert hpos
  induction content, chunk_size using read_in_chunks.induct with
  | case1 fo cs hemp =>
    intro hpos
    rw [read_in_chunks, dif_pos hemp]
    rw [List.isEmpty_eq_true, List.take_eq_nil_iff] at hemp
    have hfo : fo = [] := by
      rcases hemp with h0 | h0
      · omega
      · exact h0
    subst hfo
    exact ⟨by simp, rfl, by simp⟩
  | case2 fo cs hemp ih =>
    intro hpos
    obtain ⟨ih1, ih2, ih3⟩ := ih hpos
    rw [read_in_chunks, dif_neg hemp]
    rw [List.isEmpty_eq_true, List.take_eq_nil_iff, not_or] at hemp
    have hfo : fo ≠ [] := hemp.2
    have hlen : 0 < fo.length := List.length_pos.mpr hfo
    refine ⟨?_, ?_, ?_⟩
    · intro chunk hchunk
      rcases List.mem_cons.mp hchunk with h1 | h1
      · subst h1
        refine ⟨?_, ?_⟩
        · rw [Ne, List.take_eq_nil_iff]
          exact not_or.mpr hemp
        · rw [List.length_take]
          exact Nat.min_le_left cs fo.length
      · exact ih1 chunk h1
    · rw [List.flatten_cons, ih2, List.take_append_drop]
    · have h3 := ih3
      rw [List.length_drop] at h3
      simp only [List.length_cons]
      omega

theorem zip_self_map {α : Type} {β : Type} (l : List α) (f : α → β) :
    l.zip (l.map f) = l.map fun a => (a, f a) := by
  induction l with
  | nil => rfl
  | cons a t ih => simp [ih]

/-- The pivot's lookup finds exactly the row of a key triple present in a
key-unique tidy frame. -/
theorem lookupValue_of_mem (rows : List TidyRow) (r : TidyRow) (hr : r ∈ rows)
    (huniq : ∀ r1 ∈ rows, ∀ r2 ∈ rows, r1.station_id = r2.station_id →
      r1.date = r2.date → r1.parameter = r2.parameter → r1 = r2) :
    lookupValue rows r.station_id r.date r.parameter = some r.value := by
  unfold lookupValue
  rcases hfind : rows.find? (fun r' => r'.station_id == r.station_id &&
      r'.date == r.date && r'.parameter == r.parameter) with _ | r'
  · exfalso
    have := List.find?_eq_none.mp hfind r hr
    simp at this
  · have hpred := List.find?_some hfind
    simp only [Bool.and_eq_true, beq_iff_eq] at hpred
    have heq : r' = r :=
      huniq r' (List.mem_of_find?_eq_some hfind) r hr hpred.1.1 hpred.1.2 hpred.2
    rw [hfind, heq]
    rfl

/-- C5: over a parameter set covering the frame, pivoting a key-unique
tidy frame to wide form and melting back to tidy form reproduces exactly
the original rows as a set, and the pivot's parameter columns are sorted
by canonical name. -/
theorem c5_theorem (ps : List String) (rows : List TidyRow)
    (hmem : ∀ r ∈ rows, r.parameter ∈ ps)
    (huniq : ∀ r1 ∈ rows, ∀ r2 ∈ rows, r1.station_id = r2.station_id →
      r1.date = r2.date → r1.parameter = r2.parameter → r1 = r2) :
    (∀ r : TidyRow, r ∈ unpivotTidy (pivotWide ps rows) ↔ r ∈ rows) ∧
    (pivotWide ps rows).params.Pairwise (· ≤ ·) := by
  constructor
  · intro r
    constructor
    · intro hr
      simp only [unpivotTidy, pivotWide, List.mem_flatMap, List.mem_map] at hr
      obtain ⟨kr, ⟨k, hk, rfl⟩, hr2⟩ := hr
      rw [zip_self_map, List.mem_filterMap] at hr2
      obtain ⟨pc, hpc, hsome⟩ := hr2
      rw [List.mem_map] at hpc
      obtain ⟨p, hp, rfl⟩ := hpc
      rw [Option.map_eq_some'] at hsome
      obtain ⟨v, hv, rfl⟩ := hsome
      unfold lookupValue at hv
      rw [Option.map_eq_some'] at hv
      obtain ⟨r', hfind, hval⟩ := hv
      have hmem' := List.mem_of_find?_eq_some hfind
      have hpred := List.find?_some hfind
      simp only [Bool.and_eq_true, beq_iff_eq] at hpred
      have heq : (⟨k.1, k.2, p, v⟩ : TidyRow) = r' := by
        obtain ⟨⟨hsid, hdate⟩, hparam⟩ := hpred
        cases r'
        simp_all
      rw [heq]
      exact hmem'
    · intro hr
      simp only [unpivotTidy, pivotWide, List.mem_flatMap, List.mem_map]
      have hpcols : r.parameter ∈ ps.dedup.mergeSort fun a b => decide (a ≤ b) := by
        rw [List.mem_mergeSort]
        exact List.mem_dedup.mpr (hmem r hr)
      refine ⟨((r.station_id, r.date),
        (ps.dedup.mergeSort fun a b => decide (a ≤ b)).map fun p =>
          lookupValue rows r.station_id r.date p),
        ⟨(r.station_id, r.date), ?_, rfl⟩, ?_⟩
      · unfold tidyKeys
        rw [List.mem_dedup]
        exact List.mem_map_of_mem _ hr
      · rw [zip_self_map, List.mem_filterMap]
        refine ⟨(r.parameter, lookupValue rows r.station_id r.date r.parameter),
          List.mem_map_of_mem _ hpcols, ?_⟩
        rw [lookupValue_of_mem rows r hr huniq]
        rfl
  · simp only [pivotWide]
    have htrans : ∀ (a b c : String), decide (a ≤ b) = true →
        decide (b ≤ c) = true → decide (a ≤ c) = true := by
      intro a b c h1 h2
      rw [decide_eq_true_eq] at h1 h2 ⊢
      exact le_trans h1 h2
    have htotal : ∀ (a b : String), (decide (a ≤ b) || decide (b ≤ a)) = true := by
      intro a b
      simpa [Bool.or_eq_true, decide_eq_true_eq] using le_total a b
    have hs := List.sorted_mergeSort htrans htotal ps.dedup
    exact hs.imp fun hab => of_decide_eq_true hab

/-- C5 (witness): the round-trip membership equivalence at a concrete tidy
frame and row. -/
theorem c5_witness :
    ((⟨"GME00111464", "2020-01-01", "prcp", 5⟩ : TidyRow) ∈
        unpivotTidy (pivotWide ["tmax", "prcp"]
          [⟨"GME00111464", "2020-01-01", "prcp", 5⟩,
           ⟨"GME00111464", "2020-01-01", "tmax", 31⟩,
           ⟨"GME00111464", "2020-01-02", "tmax", 28⟩]) ↔
      (⟨"GME00111464", "2020-01-01", "prcp", 5⟩ : TidyRow) ∈
        [⟨"GME00111464", "2020-01-01", "prcp", 5⟩,
         ⟨"GME00111464", "2020-01-01", "tmax", 31⟩,
         ⟨"GME00111464", "2020-01-02", "tmax", 28⟩]) :=
  ( c5_theorem ["tmax", "prcp"]
    [⟨"GME00111464", "2020-01-01", "prcp", 5⟩,
     ⟨"GME00111464", "2020-01-01", "tmax", 31⟩,
     ⟨"GME00111464", "2020-01-02", "tmax", 28⟩]
    (by decide) (by decide)).1 _

/-- C9 (witness): the chunked reader on concrete content with chunk size
two reassembles the content. -/
theorem c9_witness :
    (read_in_chunks [0, 1, 2] 2).flatten = ([0, 1, 2] : List Nat) :=
  (c9_theorem [0, 1, 2] 2 (by decide)).2.1
